import Mathlib

/-!
Verification of the contact-form submission pipeline of the
Event-Driven-Contact-Form demo repository.

The embedding below translates, from the source:
- the Validation Engine (`validateField`, `validateForm`) of
  `frontend/src/components/ContactForm.jsx`, lines 38-122;
- the Submission State Machine (`handleSubmit`, `resetForm`, the component
  state `formData` / `formState` / `sessionId`) of the same file,
  lines 13-35, 124-208, 448-452;
- the telemetry ticker of `App` (the `setInterval` body updating `stats`).

Strings are modelled as Lean `String` (sequences of Unicode code points;
JavaScript `.length` counts UTF-16 code units, which agrees with code-point
count on all strings without supplementary-plane characters).
-/

/-- Character class of the JavaScript regex class `\s` (and of the
characters removed by `String.prototype.trim`): ASCII whitespace,
NBSP, the Unicode space separators, line/paragraph separators and BOM. -/
def isJsSpace (c : Char) : Bool :=
  c = ' ' || c = '\t' || c = '\n' || c = '\r' || c = '\x0b' || c = '\x0c' ||
  c = ' ' || c = ' ' || (' ' ≤ c && c ≤ ' ') ||
  c = ' ' || c = ' ' || c = ' ' || c = ' ' ||
  c = '　' || c = '﻿'

/-- JavaScript `value.trim()`: strip leading and trailing whitespace. -/
def jsTrim (s : String) : String :=
  String.mk (((s.toList.dropWhile isJsSpace).reverse.dropWhile isJsSpace).reverse)

/-- Split a character list at every occurrence of `@` (the way a match of
the anchored regex `^[^\s@]+@[^\s@]+\.[^\s@]+$` partitions its subject:
the subject matches iff it splits at `@` into exactly two parts with the
shapes tested in `emailRegexTest`). -/
def splitOnAtSign (l : List Char) : List (List Char) :=
  match l with
  | [] => [[]]
  | c :: cs =>
    let r := splitOnAtSign cs
    if c = '@' then [] :: r
    else
      match r with
      | [] => [[c]]
      | p :: ps => (c :: p) :: ps

/-- The test of the email regex `/^[^\s@]+@[^\s@]+\.[^\s@]+$/`
(ContactForm.jsx line 49): the subject consists of a nonempty
whitespace-free, `@`-free local part, one `@`, and a whitespace-free,
`@`-free domain part containing a `.` that is neither its first nor its
last character (the regex pieces `[^\s@]+\.[^\s@]+`). -/
def emailRegexTest (value : String) : Bool :=
  match splitOnAtSign value.toList with
  | [loc, dom] =>
      decide (1 ≤ loc.length) &&
      loc.all (fun c => !(isJsSpace c)) &&
      dom.all (fun c => !(isJsSpace c)) &&
      (dom.drop 1).dropLast.contains '.'
  | _ => false

/-- The stripping step `value.replace(/[\s\-\(\)]/g, '')` of the phone rule
(ContactForm.jsx line 61): delete every whitespace character, hyphen and
parenthesis. -/
def stripPhone (s : String) : String :=
  String.mk (s.toList.filter (fun c => !(isJsSpace c || c = '-' || c = '(' || c = ')')))

/-- The test of the phone regex `/^[\+]?[1-9][\d]{0,15}$/`
(ContactForm.jsx line 61): an optional leading `+`, then one digit in
`1`-`9`, then at most 15 further digits, end of subject. -/
def phoneRegexTest (s : String) : Bool :=
  match s.toList with
  | [] => false
  | c :: cs =>
    if c = '+' then
      match cs with
      | [] => false
      | d :: ds => decide ('1' ≤ d) && decide (d ≤ '9') &&
                   decide (ds.length ≤ 15) && ds.all Char.isDigit
    else
      decide ('1' ≤ c) && decide (c ≤ '9') &&
      decide (cs.length ≤ 15) && cs.all Char.isDigit

/-- The phone shape of claim C7 as amended: after the stripping step, the
value is a string of 1 to 16 digits whose leading digit is nonzero
(in `1`-`9`), optionally prefixed with `+`.  Stated from the amended
claim's words, to be compared with the source-derived
`phoneRegexTest`. -/
def amendedPhoneShape (s : String) : Bool :=
  let d := match s.toList with
           | c :: cs => if c = '+' then cs else c :: cs
           | [] => []
  match d with
  | [] => false
  | c :: cs => decide ('1' ≤ c) && decide (c ≤ '9') &&
               decide ((c :: cs).length ≤ 16) && cs.all Char.isDigit

/-- ContactForm.jsx `validateField(name, value)`, lines 38-78: the switch
over the field name, each arm producing an error object with at most one
entry keyed by that field name.  Field names with no switch case (among
them the two boolean consent fields, which the `validateForm` loop also
feeds through this switch) produce no entry. -/
def validateField (name value : String) : List (String × String) :=
  match name with
  | "name" =>
    if jsTrim value = "" then [("name", "Name is required")]
    else if (jsTrim value).length < 2 then [("name", "Name must be at least 2 characters")]
    else if (jsTrim value).length > 100 then [("name", "Name must be less than 100 characters")]
    else []
  | "email" =>
    if jsTrim value = "" then [("email", "Email is required")]
    else if emailRegexTest value = false then [("email", "Please enter a valid email address")]
    else []
  | "company" =>
    if jsTrim value = "" then [("company", "Company is required")]
    else if (jsTrim value).length < 2 then [("company", "Company name must be at least 2 characters")]
    else if (jsTrim value).length > 100 then [("company", "Company name must be less than 100 characters")]
    else []
  | "phone" =>
    if value ≠ "" ∧ phoneRegexTest (stripPhone value) = false then
      [("phone", "Please enter a valid phone number")]
    else []
  | "message" =>
    if jsTrim value = "" then [("message", "Message is required")]
    else if (jsTrim value).length < 10 then [("message", "Message must be at least 10 characters")]
    else if (jsTrim value).length > 2000 then [("message", "Message must be less than 2000 characters")]
    else []
  | "preferred_contact_method" =>
    if value = "" then [("preferred_contact_method", "Please select a preferred contact method")]
    else []
  | _ => []

/-- The `formData` record of ContactForm.jsx, lines 14-23. -/
structure FormData where
  name : String
  email : String
  company : String
  phone : String
  message : String
  preferred_contact_method : String
  consent_marketing : Bool
  consent_data_processing : Bool
deriving DecidableEq, Repr

/-- The initial `formData` (every string field empty, both consents false),
as produced by the `useState` initializer, lines 14-23, and again by
`resetForm`, lines 189-198. -/
def initFormData : FormData :=
  { name := "", email := "", company := "", phone := "", message := "",
    preferred_contact_method := "", consent_marketing := false,
    consent_data_processing := false }

/-- ContactForm.jsx `validateForm()`, lines 106-122: iterate over the keys
of `formData` in declaration order, skipping `phone` (`// Phone is
optional`), merging each `validateField` result; the two consent keys hit
no switch case and contribute nothing, so only the five calls below
remain; finally the explicit consent check appends its entry when
`consent_data_processing` is false.  `Object.assign` merging of
singleton objects with pairwise distinct keys is list concatenation. -/
def validateForm (fd : FormData) : List (String × String) :=
  validateField "name" fd.name ++
  validateField "email" fd.email ++
  validateField "company" fd.company ++
  validateField "message" fd.message ++
  validateField "preferred_contact_method" fd.preferred_contact_method ++
  (if fd.consent_data_processing then []
   else [("consent_data_processing", "Data processing consent is required")])

/-- The `formState` record of ContactForm.jsx, lines 25-33.  JavaScript
`null` initial values of nullable fields are `Option` `none`. -/
structure FormState where
  isSubmitting : Bool
  isSubmitted : Bool
  error : Option String
  validationErrors : List (String × String)
  submissionStartTime : Option Nat
  eventId : Option String
  correlationId : Option String
deriving DecidableEq, Repr

/-- The initial `formState` (lines 25-33), also restored by `resetForm`
(lines 199-207). -/
def initFormState : FormState :=
  { isSubmitting := false, isSubmitted := false, error := none,
    validationErrors := [], submissionStartTime := none,
    eventId := none, correlationId := none }

/-- The whole component state of one mounted ContactForm: the form record,
the submission state and the session identity generated once by the
`useState(() => ...)` initializer at line 35. -/
structure Machine where
  formData : FormData
  formState : FormState
  sessionId : String
deriving DecidableEq, Repr

/-- The parsed JSON body of a backend response, with the three fields
`handleSubmit` reads from it (`event_id`, `correlation_id`, `error`);
a field absent from the body is `none`. -/
structure ResponseBody where
  event_id : Option String
  correlation_id : Option String
  error : Option String
deriving DecidableEq, Repr

/-- Outcome of the `fetch` call and the `response.json()` parse:
either a response with an HTTP status and a parsed JSON body, or a
transport failure (network error or unparseable body), whose caught
exception carries the runtime-generated message `msg`. -/
inductive TransportResult where
  | response (status : Nat) (body : ResponseBody)
  | failure (msg : String)
deriving DecidableEq, Repr

/-- The `fetch` Response `ok` flag: status in the 2xx range. -/
def responseOk (status : Nat) : Bool :=
  decide (200 ≤ status) && decide (status ≤ 299)

/-- The request body built at lines 149-156: the full `formData`, the
session id, the fixed version marker and the elapsed milliseconds between
the submit click and payload construction. -/
structure Payload where
  form_data : FormData
  session_id : String
  form_version : String
  submission_duration_ms : Nat
deriving DecidableEq, Repr

/-- ContactForm.jsx `handleSubmit`, lines 124-186, as one atomic submit
attempt.  `t0` is `Date.now()` at entry (line 127), `t1` is `Date.now()`
at payload construction (line 147), and `resp` is the outcome of the one
`fetch` the attempt may issue.  The returned list holds the payload of
every network call performed (empty when validation fails, line 143).
The steps, in source order: set `isSubmitting`, clear `error`, record the
start time (lines 128-133); recompute the full error set and bail out
publishing it if nonempty (lines 136-144); otherwise build the payload,
issue the call, and fold the response back: a 2xx response yields
`isSubmitted` with the body's `event_id`/`correlation_id` (lines 168-175),
a non-2xx response throws `new Error(result.error || 'Failed to submit
form')` whose message the catch block stores (lines 176-184), and a
transport failure lands in the same catch block with the runtime's own
message. -/
def handleSubmit (t0 t1 : Nat) (resp : TransportResult) (m : Machine) :
    Machine × List Payload :=
  let fs1 : FormState :=
    { m.formState with isSubmitting := true, error := none,
                       submissionStartTime := some t0 }
  let validationErrors := validateForm m.formData
  if 0 < validationErrors.length then
    ({ m with formState :=
        { fs1 with isSubmitting := false, validationErrors := validationErrors } }, [])
  else
    let payload : Payload :=
      { form_data := m.formData, session_id := m.sessionId,
        form_version := "1.0.0", submission_duration_ms := t1 - t0 }
    match resp with
    | .response status body =>
      if responseOk status then
        ({ m with formState :=
            { fs1 with isSubmitting := false, isSubmitted := true,
                       eventId := body.event_id,
                       correlationId := body.correlation_id } }, [payload])
      else
        ({ m with formState :=
            { fs1 with isSubmitting := false,
                       error := some (match body.error with
                         | some e => if e = "" then "Failed to submit form" else e
                         | none => "Failed to submit form") } }, [payload])
    | .failure msg =>
        ({ m with formState :=
            { fs1 with isSubmitting := false, error := some msg } }, [payload])

/-- A submit attempt as the rendered form dispatches it: the submit
`Button` carries `disabled={formState.isSubmitting}` (lines 448-452), and
every input is likewise disabled while submitting, so while a submission
is in flight the submit control dispatches nothing and `handleSubmit`
never runs; otherwise the form's `onSubmit` (line 270) runs
`handleSubmit`. -/
def submitAttempt (t0 t1 : Nat) (resp : TransportResult) (m : Machine) :
    Machine × List Payload :=
  if m.formState.isSubmitting then (m, []) else handleSubmit t0 t1 resp m

/-- ContactForm.jsx `resetForm`, lines 188-208: restore the initial
`formData` and `formState`.  The `sessionId` state is declared with no
setter (line 35: `const [sessionId] = useState(...)`) and `resetForm`
does not touch it, so it is unchanged. -/
def resetForm (m : Machine) : Machine :=
  { formData := initFormData, formState := initFormState,
    sessionId := m.sessionId }

/-- The `systemHealth` values the App telemetry ticker produces. -/
inductive SystemHealth where
  | healthy
  | degraded
deriving DecidableEq, Repr

/-- The `stats` record of App (part_000 lines 25-29). -/
structure TelemetryStats where
  eventsProcessed : ℤ
  avgResponseTime : ℤ
  systemHealth : SystemHealth
deriving DecidableEq, Repr

/-- The initial `stats` of App (part_000 lines 25-29). -/
def initStats : TelemetryStats :=
  { eventsProcessed := 0, avgResponseTime := 0, systemHealth := .healthy }

/-- The body of the App telemetry interval (part_000 lines 33-39):
each tick draws three values of `Math.random()` — here the parameters
`r1 r2 r3`, each in `[0,1)` — and rebuilds `stats` from the previous
snapshot alone: `eventsProcessed` grows by `Math.floor(r1 * 3)`,
`avgResponseTime` is resampled as `150 + Math.floor(r2 * 100)`, and
`systemHealth` is `healthy` iff `r3 > 0.1`.  The tick reads no input
beyond the previous snapshot and the random draws. -/
def telemetryTick (r1 r2 r3 : ℚ) (prev : TelemetryStats) : TelemetryStats :=
  { eventsProcessed := prev.eventsProcessed + ⌊r1 * 3⌋,
    avgResponseTime := 150 + ⌊r2 * 100⌋,
    systemHealth := if r3 > 1/10 then .healthy else .degraded }

/-- The record of end-to-end scenario 1 of the spec (and of claims C2/C3):
all required fields populated and valid, data-processing consent given. -/
def annRecord : FormData :=
  { name := "Ann Lee", email := "ann@ex.com", company := "Acme",
    phone := "", message := "Interested in your platform for six months.",
    preferred_contact_method := "email", consent_marketing := false,
    consent_data_processing := true }

/-- A freshly mounted machine holding `annRecord` (the state after the
user has filled the form and before any submit attempt). -/
def mAnn : Machine :=
  { formData := annRecord, formState := initFormState, sessionId := "sess_demo_1" }

/-- The record of end-to-end scenario 3: as `annRecord` but with an
invalid email. -/
def badEmailRecord : FormData :=
  { annRecord with email := "not-an-email" }

/-- A freshly mounted machine holding `badEmailRecord`. -/
def mBadEmail : Machine :=
  { formData := badEmailRecord, formState := initFormState, sessionId := "sess_demo_2" }

/-- A machine with a submission in flight. -/
def mSubmitting : Machine :=
  { formData := annRecord,
    formState := { initFormState with isSubmitting := true, submissionStartTime := some 5 },
    sessionId := "sess_demo_3" }

/-- A machine in the Submitted state (after scenario 1 succeeded). -/
def mSubmitted : Machine :=
  { formData := annRecord,
    formState :=
      { initFormState with
          isSubmitted := true,
          eventId := some "ev-1",
          correlationId := some "corr-1",
          submissionStartTime := some 5 },
    sessionId := "sess_demo_4" }

example : validateField "name" " a " ≠ [] := by decide
example : validateField "name" "Ann Lee" = [] := by decide
example : validateField "email" "ann@ex.com" = [] := by decide
example : validateField "email" "not-an-email" ≠ [] := by decide
example : validateField "phone" "" = [] := by decide
example : validateField "phone" "+1 (555) 123-4567" = [] := by decide
example : validateField "phone" "0" ≠ [] := by decide
example : validateForm initFormData ≠ [] := by decide

lemma string_length_eq_zero_iff (s : String) : s.length = 0 ↔ s = "" := by
  constructor
  · intro h
    cases s with
    | mk l =>
      cases l with
      | nil => rfl
      | cons c cs => simp [String.length] at h
  · intro h
    subst h
    rfl

/-- C1: when `validateForm` returns a nonempty error set, a submit attempt
performs no network call, publishes the full recomputed error set as the
visible validation errors, and ends with `isSubmitting` and `isSubmitted`
both false (the machine stays in Idle). -/
theorem C1_invalid_form_blocks_network (m : Machine) (t0 t1 : Nat)
    (resp : TransportResult)
    (hIdleA : m.formState.isSubmitting = false)
    (hIdleB : m.formState.isSubmitted = false)
    (hBad : validateForm m.formData ≠ []) :
    submitAttempt t0 t1 resp m =
      ({ m with formState :=
          { isSubmitting := false, isSubmitted := false, error := none,
            validationErrors := validateForm m.formData,
            submissionStartTime := some t0,
            eventId := m.formState.eventId,
            correlationId := m.formState.correlationId } }, []) := by
  have hlen : 0 < (validateForm m.formData).length := List.length_pos.mpr hBad
  simp [submitAttempt, hIdleA, handleSubmit, hlen, hIdleB]

/-- Witness for C1, end-to-end scenario 3: the record with
email "not-an-email" fails validation with an email-field error, and its
submit attempt performs no network call and stays in Idle. -/
theorem C1_witness :
    validateForm badEmailRecord ≠ [] ∧
    ("email", "Please enter a valid email address") ∈ validateForm badEmailRecord ∧
    (submitAttempt 3 7 (.failure "Failed to fetch") mBadEmail).2 = [] ∧
    (submitAttempt 3 7 (.failure "Failed to fetch") mBadEmail).1.formState.isSubmitting = false ∧
    (submitAttempt 3 7 (.failure "Failed to fetch") mBadEmail).1.formState.isSubmitted = false ∧
    (submitAttempt 3 7 (.failure "Failed to fetch") mBadEmail).1.formState.validationErrors =
      validateForm badEmailRecord := by
  have h := C1_invalid_form_blocks_network mBadEmail 3 7 (.failure "Failed to fetch")
    (by decide) (by decide) (by decide)
  refine ⟨by decide, by decide, ?_, ?_, ?_, ?_⟩ <;> rw [h] <;> rfl

/-- C4: a submit attempt issued while the machine is already Submitting is
a no-op: the state is unchanged and no network call is made. -/
theorem C4_reentrant_submit_noop (m : Machine) (t0 t1 : Nat)
    (resp : TransportResult)
    (h : m.formState.isSubmitting = true) :
    submitAttempt t0 t1 resp m = (m, []) := by
  simp [submitAttempt, h]

/-- Witness for C4 at a concrete in-flight machine. -/
theorem C4_witness :
    mSubmitting.formState.isSubmitting = true ∧
    submitAttempt 11 13 (.response 200 ⟨some "ev-9", some "corr-9", none⟩) mSubmitting =
      (mSubmitting, []) :=
  ⟨by decide,
   C4_reentrant_submit_noop mSubmitting 11 13
     (.response 200 ⟨some "ev-9", some "corr-9", none⟩) (by decide)⟩

/-- Counterexample to C5: `resetForm` does not regenerate the session
identity.  From a concrete Submitted machine, the post-reset
`sessionId` equals the pre-reset one, contradicting the claim that it is
different (`const [sessionId] = useState(...)` has no setter and
`resetForm` never touches it). -/
theorem C5_counterexample :
    mSubmitted.formState.isSubmitted = true ∧
    (resetForm mSubmitted).sessionId = mSubmitted.sessionId := by
  decide

/-- C5 as amended: reset from Submitted yields Idle with the empty form
record (every field at its initial empty/false value), an empty
validation error set, cleared submission metadata, and the SAME
session identity as before the reset. -/
theorem C5_reset_restores_initial_state (m : Machine)
    (h : m.formState.isSubmitted = true) :
    (resetForm m).formData = initFormData ∧
    (resetForm m).formData.name = "" ∧
    (resetForm m).formData.email = "" ∧
    (resetForm m).formData.company = "" ∧
    (resetForm m).formData.phone = "" ∧
    (resetForm m).formData.message = "" ∧
    (resetForm m).formData.preferred_contact_method = "" ∧
    (resetForm m).formData.consent_marketing = false ∧
    (resetForm m).formData.consent_data_processing = false ∧
    (resetForm m).formState.isSubmitting = false ∧
    (resetForm m).formState.isSubmitted = false ∧
    (resetForm m).formState.validationErrors = [] ∧
    (resetForm m).formState.error = none ∧
    (resetForm m).formState.submissionStartTime = none ∧
    (resetForm m).formState.eventId = none ∧
    (resetForm m).formState.correlationId = none ∧
    (resetForm m).sessionId = m.sessionId := by
  simp [resetForm, initFormData, initFormState]

/-- Witness for the amended C5 at the concrete Submitted machine. -/
theorem C5_witness :
    mSubmitted.formState.isSubmitted = true ∧
    (resetForm mSubmitted).formData = initFormData ∧
    (resetForm mSubmitted).formState.validationErrors = [] ∧
    (resetForm mSubmitted).sessionId = mSubmitted.sessionId := by
  have h := C5_reset_restores_initial_state mSubmitted (by decide)
  exact ⟨by decide, h.1, h.2.2.2.2.2.2.2.2.2.2.2.1, h.2.2.2.2.2.2.2.2.2.2.2.2.2.2.2.2⟩

/-- C2: a submit attempt that passes validation and receives a 2xx
response whose body carries `event_id` and `correlation_id` ends
Submitted with exactly those identifiers, the error state cleared, one
network call made carrying the full record, the session id, the version
marker and the measured duration. -/
theorem C2_success_transitions_to_submitted (m : Machine) (t0 t1 status : Nat)
    (body : ResponseBody) (ev corr : String)
    (hIdle : m.formState.isSubmitting = false)
    (hVal : validateForm m.formData = [])
    (hOk : responseOk status = true)
    (hEv : body.event_id = some ev)
    (hCorr : body.correlation_id = some corr) :
    submitAttempt t0 t1 (.response status body) m =
      ({ m with formState :=
          { isSubmitting := false, isSubmitted := true, error := none,
            validationErrors := m.formState.validationErrors,
            submissionStartTime := some t0,
            eventId := some ev, correlationId := some corr } },
       [{ form_data := m.formData, session_id := m.sessionId,
          form_version := "1.0.0", submission_duration_ms := t1 - t0 }]) := by
  simp [submitAttempt, hIdle, handleSubmit, hVal, hOk, hEv, hCorr]

/-- Witness for C2, end-to-end scenario 1: the valid record against a mock
returning status 200 with event_id "ev-1" and correlation_id "corr-1"
ends Submitted("ev-1","corr-1") with an empty error set. -/
theorem C2_witness :
    validateForm annRecord = [] ∧
    (submitAttempt 3 7 (.response 200 ⟨some "ev-1", some "corr-1", none⟩) mAnn).1.formState.isSubmitted = true ∧
    (submitAttempt 3 7 (.response 200 ⟨some "ev-1", some "corr-1", none⟩) mAnn).1.formState.eventId = some "ev-1" ∧
    (submitAttempt 3 7 (.response 200 ⟨some "ev-1", some "corr-1", none⟩) mAnn).1.formState.correlationId = some "corr-1" ∧
    (submitAttempt 3 7 (.response 200 ⟨some "ev-1", some "corr-1", none⟩) mAnn).1.formState.error = none ∧
    (submitAttempt 3 7 (.response 200 ⟨some "ev-1", some "corr-1", none⟩) mAnn).1.formState.validationErrors = [] ∧
    (submitAttempt 3 7 (.response 200 ⟨some "ev-1", some "corr-1", none⟩) mAnn).2.length = 1 := by
  have h := C2_success_transitions_to_submitted mAnn 3 7 200
    ⟨some "ev-1", some "corr-1", none⟩ "ev-1" "corr-1"
    (by decide) (by decide) (by decide) rfl rfl
  refine ⟨by decide, ?_, ?_, ?_, ?_, ?_, ?_⟩ <;> rw [h] <;> rfl

/-- C3 as amended: after a validation-passing attempt, a non-2xx response
whose body carries a NON-EMPTY error string ends Failed with that message
verbatim, a transport failure ends Failed with the runtime's generic
message, and in both cases the resulting state accepts a new submit
attempt which re-enters the pipeline through the same validation gate and
issues a network call. -/
theorem C3_failure_and_retry (m : Machine) (t0 t1 status t0a t1a : Nat)
    (body : ResponseBody) (msg gmsg : String) (resp2 : TransportResult)
    (hIdleA : m.formState.isSubmitting = false)
    (hIdleB : m.formState.isSubmitted = false)
    (hVal : validateForm m.formData = [])
    (hNotOk : responseOk status = false)
    (hErr : body.error = some msg)
    (hNe : msg ≠ "") :
    (submitAttempt t0 t1 (.response status body) m =
       ({ m with formState :=
           { isSubmitting := false, isSubmitted := false, error := some msg,
             validationErrors := m.formState.validationErrors,
             submissionStartTime := some t0,
             eventId := m.formState.eventId,
             correlationId := m.formState.correlationId } },
        [{ form_data := m.formData, session_id := m.sessionId,
           form_version := "1.0.0", submission_duration_ms := t1 - t0 }])) ∧
    (submitAttempt t0 t1 (.failure gmsg) m =
       ({ m with formState :=
           { isSubmitting := false, isSubmitted := false, error := some gmsg,
             validationErrors := m.formState.validationErrors,
             submissionStartTime := some t0,
             eventId := m.formState.eventId,
             correlationId := m.formState.correlationId } },
        [{ form_data := m.formData, session_id := m.sessionId,
           form_version := "1.0.0", submission_duration_ms := t1 - t0 }])) ∧
    ((submitAttempt t0a t1a resp2
        (submitAttempt t0 t1 (.response status body) m).1).2.length = 1) := by
  have h1 : submitAttempt t0 t1 (.response status body) m =
      ({ m with formState :=
          { isSubmitting := false, isSubmitted := false, error := some msg,
            validationErrors := m.formState.validationErrors,
            submissionStartTime := some t0,
            eventId := m.formState.eventId,
            correlationId := m.formState.correlationId } },
       [{ form_data := m.formData, session_id := m.sessionId,
          form_version := "1.0.0", submission_duration_ms := t1 - t0 }]) := by
    simp [submitAttempt, hIdleA, handleSubmit, hVal, hNotOk, hErr, hNe, hIdleB]
  refine ⟨h1, ?_, ?_⟩
  · simp [submitAttempt, hIdleA, handleSubmit, hVal, hIdleB]
  · rw [h1]
    cases resp2 with
    | response status2 body2 =>
      by_cases h2 : responseOk status2 <;>
        simp [submitAttempt, handleSubmit, hVal, h2]
    | failure msg2 =>
      simp [submitAttempt, handleSubmit, hVal]

/-- Witness for the amended C3, end-to-end scenario 2: status 422 with
error "duplicate submission" ends Failed("duplicate submission"), and a
subsequent attempt issues a network call again. -/
theorem C3_witness :
    (submitAttempt 3 7 (.response 422 ⟨none, none, some "duplicate submission"⟩) mAnn).1.formState.error = some "duplicate submission" ∧
    (submitAttempt 3 7 (.response 422 ⟨none, none, some "duplicate submission"⟩) mAnn).1.formState.isSubmitted = false ∧
    (submitAttempt 3 7 (.response 422 ⟨none, none, some "duplicate submission"⟩) mAnn).1.formState.isSubmitting = false ∧
    (submitAttempt 3 7 (.failure "Failed to fetch") mAnn).1.formState.error = some "Failed to fetch" ∧
    (submitAttempt 11 13 (.response 200 ⟨some "ev-2", some "corr-2", none⟩)
       (submitAttempt 3 7 (.response 422 ⟨none, none, some "duplicate submission"⟩) mAnn).1).2.length = 1 := by
  have h := C3_failure_and_retry mAnn 3 7 422 11 13
    ⟨none, none, some "duplicate submission"⟩ "duplicate submission" "Failed to fetch"
    (.response 200 ⟨some "ev-2", some "corr-2", none⟩)
    (by decide) (by decide) (by decide) (by decide) rfl (by decide)
  refine ⟨?_, ?_, ?_, ?_, h.2.2⟩ <;> first
    | (rw [h.1] <;> rfl)
    | (rw [h.2.1] <;> rfl)

/-- Counterexample to C3 as stated: a non-2xx response whose JSON body
contains the (empty) error string "" does NOT end Failed carrying that
message verbatim; the falsy `result.error || 'Failed to submit form'`
replaces it with the generic message. -/
theorem C3_counterexample :
    (submitAttempt 3 7 (.response 422 ⟨none, none, some ""⟩) mAnn).1.formState.error =
      some "Failed to submit form" ∧
    (submitAttempt 3 7 (.response 422 ⟨none, none, some ""⟩) mAnn).1.formState.error ≠
      some "" := by
  decide

/-- C6: `validateForm` never inspects the phone field.  For any record
whose other fields each pass their per-field rule and whose
data-processing consent is true, the full-form error set is empty for
EVERY phone value, and the submit attempt from a fresh machine holding
that record issues exactly one network call whose payload embeds the
record, phone value included. -/
theorem C6_phone_skipped_by_validateForm (fd : FormData) (p sid : String)
    (t0 t1 : Nat) (resp : TransportResult)
    (hname : validateField "name" fd.name = [])
    (hemail : validateField "email" fd.email = [])
    (hcompany : validateField "company" fd.company = [])
    (hmessage : validateField "message" fd.message = [])
    (hpref : validateField "preferred_contact_method" fd.preferred_contact_method = [])
    (hconsent : fd.consent_data_processing = true) :
    validateForm { fd with phone := p } = [] ∧
    (submitAttempt t0 t1 resp
        { formData := { fd with phone := p }, formState := initFormState,
          sessionId := sid }).2 =
      [{ form_data := { fd with phone := p }, session_id := sid,
         form_version := "1.0.0", submission_duration_ms := t1 - t0 }] := by
  have hform : validateForm { fd with phone := p } = [] := by
    simp [validateForm, hname, hemail, hcompany, hmessage, hpref, hconsent]
  refine ⟨hform, ?_⟩
  cases resp with
  | response status body =>
    by_cases h2 : responseOk status <;>
      simp [submitAttempt, initFormState, handleSubmit, hform, h2]
  | failure msg2 =>
    simp [submitAttempt, initFormState, handleSubmit, hform]

/-- Witness for C6: a record that is valid except for a phone value that
fails the phone rule still passes `validateForm`, and its submission
payload carries the invalid phone value to the transport. -/
theorem C6_witness :
    validateField "phone" "12abc" ≠ [] ∧
    validateForm { annRecord with phone := "12abc" } = [] ∧
    (submitAttempt 3 7 (.failure "Failed to fetch")
        { formData := { annRecord with phone := "12abc" },
          formState := initFormState, sessionId := "sess_demo_5" }).2 =
      [{ form_data := { annRecord with phone := "12abc" },
         session_id := "sess_demo_5", form_version := "1.0.0",
         submission_duration_ms := 4 }] := by
  have h := C6_phone_skipped_by_validateForm annRecord "12abc" "sess_demo_5" 3 7
    (.failure "Failed to fetch")
    (by decide) (by decide) (by decide) (by decide) (by decide) (by decide)
  exact ⟨by decide, h.1, h.2⟩

lemma phoneRegexTest_eq_amendedPhoneShape (s : String) :
    phoneRegexTest s = amendedPhoneShape s := by
  simp only [phoneRegexTest, amendedPhoneShape]
  rcases h : s.toList with _ | ⟨c, cs⟩
  · rfl
  · by_cases hc : c = '+'
    · subst hc
      simp only [if_pos rfl]
      rcases cs with _ | ⟨d, ds⟩
      · rfl
      · have hlen : (ds.length + 1 ≤ 16) ↔ (ds.length ≤ 15) := by omega
        simp [List.length_cons, hlen]
    · simp only [if_neg hc]
      have hlen : (cs.length + 1 ≤ 16) ↔ (cs.length ≤ 15) := by omega
      simp [List.length_cons, hlen]

/-- Counterexample to C7 as stated: the value "0" is nonempty and strips
to itself, a digit string of exactly 1 digit with no `+` prefix, so the
claim requires no error; but the regex `^[\+]?[1-9][\d]{0,15}$` demands a
nonzero leading digit and `validateField` rejects it. -/
theorem C7_counterexample :
    stripPhone "0" = "0" ∧
    "0".toList.all Char.isDigit = true ∧
    "0".length = 1 ∧
    "0" ≠ "" ∧
    validateField "phone" "0" = [("phone", "Please enter a valid phone number")] := by
  decide

/-- C7 as amended: `validateField` on the phone field returns no error
exactly when the value is empty, or the value reduces, after the
stripping step, to a digit string of 1 to 16 digits whose leading digit
is nonzero (`1`-`9`), optionally prefixed with `+`. -/
theorem C7_phone_rule_characterization (v : String) :
    validateField "phone" v = [] ↔
      (v = "" ∨ amendedPhoneShape (stripPhone v) = true) := by
  have hrw := phoneRegexTest_eq_amendedPhoneShape (stripPhone v)
  simp only [validateField, hrw]
  by_cases hv : v = ""
  · simp [hv]
  · by_cases ha : amendedPhoneShape (stripPhone v) <;> simp [hv, ha]

/-- C8: for the length-bounded fields — name and company with bounds
[2,100], message with bounds [10,2000] — `validateField` errors whenever
the trimmed value is shorter than the minimum, and accepts whenever the
trimmed length lies within the bounds inclusive. -/
theorem C8_length_bounds (v : String) :
    ((jsTrim v).length < 2 →
      validateField "name" v ≠ [] ∧ validateField "company" v ≠ []) ∧
    (2 ≤ (jsTrim v).length → (jsTrim v).length ≤ 100 →
      validateField "name" v = [] ∧ validateField "company" v = []) ∧
    ((jsTrim v).length < 10 → validateField "message" v ≠ []) ∧
    (10 ≤ (jsTrim v).length → (jsTrim v).length ≤ 2000 →
      validateField "message" v = []) := by
  have hzero := string_length_eq_zero_iff (jsTrim v)
  refine ⟨fun hshort => ?_, fun hlo hhi => ?_, fun hshort => ?_, fun hlo hhi => ?_⟩
  · simp only [validateField]
    constructor <;> split_ifs <;> simp_all <;> omega
  · have hne : ¬ jsTrim v = "" := fun he => by
      rw [← hzero] at he
      omega
    simp only [validateField]
    constructor <;> split_ifs <;> simp_all <;> omega
  · simp only [validateField]
    split_ifs <;> simp_all <;> omega
  · have hne : ¬ jsTrim v = "" := fun he => by
      rw [← hzero] at he
      omega
    simp only [validateField]
    split_ifs <;> simp_all <;> omega

/-- Witness for C8 at concrete values: "a" trims to 1 character and is
rejected for name and company; "  Acme  " trims to 4 and is accepted;
"too short" has trimmed length 9 and is rejected for message;
"long enough msg" has trimmed length 15 and is accepted. -/
theorem C8_witness :
    ((jsTrim "a").length < 2 ∧
      validateField "name" "a" ≠ [] ∧ validateField "company" "a" ≠ []) ∧
    (2 ≤ (jsTrim "  Acme  ").length ∧ (jsTrim "  Acme  ").length ≤ 100 ∧
      validateField "name" "  Acme  " = [] ∧ validateField "company" "  Acme  " = []) ∧
    ((jsTrim "too short").length < 10 ∧ validateField "message" "too short" ≠ []) ∧
    (10 ≤ (jsTrim "long enough msg").length ∧ (jsTrim "long enough msg").length ≤ 2000 ∧
      validateField "message" "long enough msg" = []) := by
  refine ⟨⟨by decide, (C8_length_bounds "a").1 (by decide)⟩,
          ⟨by decide, by decide, (C8_length_bounds "  Acme  ").2.1 (by decide) (by decide)⟩,
          ⟨by decide, (C8_length_bounds "too short").2.2.1 (by decide)⟩,
          ⟨by decide, by decide, (C8_length_bounds "long enough msg").2.2.2 (by decide) (by decide)⟩⟩

/-- C9: whenever `consent_data_processing` is false, `validateForm`
contains the consent error entry, whatever the other fields hold. -/
theorem C9_consent_error_always_present (fd : FormData)
    (h : fd.consent_data_processing = false) :
    ("consent_data_processing", "Data processing consent is required") ∈
      validateForm fd := by
  simp [validateForm, h]

/-- Witness for C9 at a record whose every other field is valid. -/
theorem C9_witness :
    ({ annRecord with consent_data_processing := false } : FormData).consent_data_processing = false ∧
    ("consent_data_processing", "Data processing consent is required") ∈
      validateForm { annRecord with consent_data_processing := false } :=
  ⟨rfl, C9_consent_error_always_present
    { annRecord with consent_data_processing := false } rfl⟩

/-- C10: each telemetry tick, fed only by its three random draws in
[0,1) and the previous snapshot, keeps `eventsProcessed` non-decreasing
with an increment of at most 2, resamples `avgResponseTime` inside
[150,249], and yields a `systemHealth` that is healthy or degraded. -/
theorem C10_telemetry_tick_invariant (r1 r2 r3 : ℚ) (s : TelemetryStats)
    (h1a : 0 ≤ r1) (h1b : r1 < 1) (h2a : 0 ≤ r2) (h2b : r2 < 1) :
    s.eventsProcessed ≤ (telemetryTick r1 r2 r3 s).eventsProcessed ∧
    (telemetryTick r1 r2 r3 s).eventsProcessed ≤ s.eventsProcessed + 2 ∧
    150 ≤ (telemetryTick r1 r2 r3 s).avgResponseTime ∧
    (telemetryTick r1 r2 r3 s).avgResponseTime ≤ 249 ∧
    ((telemetryTick r1 r2 r3 s).systemHealth = .healthy ∨
     (telemetryTick r1 r2 r3 s).systemHealth = .degraded) := by
  have hf1a : (0:ℤ) ≤ ⌊r1 * 3⌋ := Int.le_floor.mpr (by push_cast; nlinarith)
  have hf1b : ⌊r1 * 3⌋ ≤ 2 := by
    have h3 : ⌊r1 * 3⌋ < 3 := Int.floor_lt.mpr (by push_cast; nlinarith)
    omega
  have hf2a : (0:ℤ) ≤ ⌊r2 * 100⌋ := Int.le_floor.mpr (by push_cast; nlinarith)
  have hf2b : ⌊r2 * 100⌋ ≤ 99 := by
    have h100 : ⌊r2 * 100⌋ < 100 := Int.floor_lt.mpr (by push_cast; nlinarith)
    omega
  refine ⟨?_, ?_, ?_, ?_, ?_⟩
  · simp only [telemetryTick]
    omega
  · simp only [telemetryTick]
    omega
  · simp only [telemetryTick]
    omega
  · simp only [telemetryTick]
    omega
  · simp only [telemetryTick]
    split_ifs <;> simp

/-- Witness for C10: one tick from the initial snapshot with all three
random draws equal to 0. -/
theorem C10_witness :
    (0:ℚ) ≤ 0 ∧ (0:ℚ) < 1 ∧
    initStats.eventsProcessed ≤ (telemetryTick 0 0 0 initStats).eventsProcessed ∧
    (telemetryTick 0 0 0 initStats).eventsProcessed ≤ initStats.eventsProcessed + 2 ∧
    150 ≤ (telemetryTick 0 0 0 initStats).avgResponseTime ∧
    (telemetryTick 0 0 0 initStats).avgResponseTime ≤ 249 ∧
    ((telemetryTick 0 0 0 initStats).systemHealth = .healthy ∨
     (telemetryTick 0 0 0 initStats).systemHealth = .degraded) := by
  have h := C10_telemetry_tick_invariant 0 0 0 initStats le_rfl (by norm_num)
    le_rfl (by norm_num)
  exact ⟨le_rfl, by norm_num, h.1, h.2.1, h.2.2.1, h.2.2.2.1, h.2.2.2.2⟩
